import Mathlib

/-!
Shallow embedding of `examples/data/uzbl/plugins/keycmd.py` (uzbl keycmd
plugin) and verification of its specification claims.

Strings are modelled as `List Char`; Python slice/index semantics
(negative indices count from the end) are modelled explicitly.  The
configuration store is an association list; each handler returns the new
`Keylet` together with the list of event names it raised and the list of
configuration writes it performed, in order.  Fallible operations
(Python exceptions: `ValueError` from `int`, `AssertionError` from the
strip-word assertion) return `Option`, `none` meaning the exception
propagates to the caller before any further effect.
-/

set_option autoImplicit false

/-- Python strings, modelled as lists of characters. -/
abbrev Str := List Char

/-- Shorthand turning a Lean string literal into the `List Char` model. -/
def str (s : String) : Str := s.data

/-- The configuration store: a string-keyed key/value map (`uzbl.get_config()`). -/
abbrev Config := List (Str × Str)

/-- `key in config` / `config[key]` combined: `some v` when present. -/
def cfgGet (cfg : Config) (key : Str) : Option Str := cfg.lookup key

/-- Python slice `s[:j]` (negative `j` counts from the end, out-of-range clamps). -/
def pySliceTo (s : Str) (j : Int) : Str :=
  s.take (if j < 0 then (j + s.length).toNat else j.toNat)

/-- Python slice `s[i:]` (negative `i` counts from the end, out-of-range clamps). -/
def pySliceFrom (s : Str) (i : Int) : Str :=
  s.drop (if i < 0 then (i + s.length).toNat else i.toNat)

/-- Python index `s[i]` as a one-character string; `[]` when out of range
(an out-of-range index raises `IndexError`, which no modelled call path reaches). -/
def pyIndex (s : Str) (i : Int) : Str :=
  let j := if i < 0 then i + s.length else i
  if 0 ≤ j ∧ j < s.length then (s.drop j.toNat).take 1 else []

/-- Python `s.replace(c, '\\' + c)` for a single-character pattern `c`. -/
def pyReplace (s : Str) (c : Char) : Str :=
  s.flatMap (fun x => if x = c then ['\\', c] else [x])

/-- `escape` (keycmd.py lines 23-34): backslash-escape `\` and `@` in that
order and wrap a non-empty result in `@[...]@`; the empty string maps to itself. -/
def escape (s : Str) : Str :=
  if s = [] then []
  else
    let s1 := if '\\' ∈ s then pyReplace s '\\' else s
    let s2 := if '@' ∈ s1 then pyReplace s1 '@' else s1
    str "@[" ++ s2 ++ str "]@"

/-- `_SIMPLEKEYS` lookup together with the `_L`/`_R` suffix strip
(`make_simple`, keycmd.py lines 94-104). -/
def make_simple (key : Str) : Str :=
  let key := if (str "_L").isSuffixOf key ∨ (str "_R").isSuffixOf key
             then key.take (key.length - 2) else key
  if key = str "Control" then str "Ctrl"
  else if key = str "ISO_Left_Tab" then str "Shift-Tab"
  else if key = str "space" then str "Space"
  else key

/-- The `if len(key) > 1: key = make_simple(key)` step shared by
`key_press` (lines 201-202) and `key_release` (lines 250-251). -/
def normalizeKey (key : Str) : Str :=
  if key.length > 1 then make_simple key else key

/-- The per-instance keylet state (class `Keylet`, keycmd.py lines 47-91).
The `_to_string` memo field is omitted: the registry accessor resets it on
every access and `to_string` is modelled as the pure recomputation, so it
has no modelled observable effect. -/
structure Keylet where
  cmd : Str
  cursor : Int
  held : List Str
  modcmd : Bool
deriving Repr, DecidableEq

/-- `Keylet.mod_held` (lines 61-63): some held key name has length ≠ 1. -/
def mod_held (held : List Str) : Bool :=
  held.any (fun x => x.length != 1)

/-- `Keylet.mod_cmd` (lines 69-71): each held key rendered as `<name>`. -/
def mod_cmd (held : List Str) : Str :=
  (held.map (fun key => '<' :: (key ++ ['>']))).flatten

/-- `Keylet.to_string` (lines 76-85) recomputed without the memo field. -/
def to_string (k : Keylet) : Str :=
  mod_cmd k.held ++ k.cmd

/-- Result of running one handler: the new keylet, the event names raised
via `uzbl.event`, and the `uzbl.set` configuration writes, each in order. -/
structure Effects where
  k : Keylet
  events : List Str
  writes : List (Str × Str)
deriving Repr, DecidableEq

/-- The `key in config and config[key] != '1'` gate used for
`modcmd_updates` (line 160) and `keycmd_events` (lines 165, 218). -/
def gateClosed (cfg : Config) (key : Str) : Bool :=
  match cfgGet cfg key with
  | some v => v != str "1"
  | none => false

/-- `update_event` (keycmd.py lines 149-185): raise the keycmd/modcmd update
events and compute the `keycmd` variable write.  The keylet is not mutated.
The `keycmd != k.to_string()` / `keycmd != k.cmd` re-entrancy checks are kept
verbatim; with no re-entrant handlers in the model they always pass. -/
def update_event (cfg : Config) (k : Keylet) (execute : Bool) : Effects :=
  if k.modcmd then
    let keycmd := to_string k
    let evs := if execute then [str "MODCMD_UPDATE"] else []
    if keycmd ≠ to_string k then ⟨k, evs, []⟩
    else if gateClosed cfg (str "modcmd_updates") then ⟨k, evs, []⟩
    else ⟨k, evs, [(str "keycmd", escape keycmd)]⟩
  else
    if gateClosed cfg (str "keycmd_events") then ⟨k, [], []⟩
    else
      let keycmd := k.cmd
      let evs := if execute then [str "KEYCMD_UPDATE"] else []
      if keycmd ≠ k.cmd then ⟨k, evs, []⟩
      else if k.cmd = [] then ⟨k, evs, [(str "keycmd", [])]⟩
      else
        let cursorS := if k.cursor < (k.cmd.length : Int) then pyIndex k.cmd k.cursor else [' ']
        let before := escape (pySliceTo k.cmd k.cursor)
        let cur := escape cursorS
        let after := escape (pySliceFrom k.cmd (k.cursor + 1))
        ⟨k, evs, [(str "keycmd",
          before ++ str "<span @cursor_style>" ++ cur ++ str "</span>" ++ after)]⟩

/-- `clear_keycmd` (keycmd.py lines 133-146). -/
def clear_keycmd (cfg : Config) (k : Keylet) : Effects :=
  let k' := { k with cmd := [], cursor := 0, modcmd := mod_held k.held }
  let writes :=
    match cfgGet cfg (str "keycmd") with
    | none => [(str "keycmd", ([] : Str))]
    | some v => if v ≠ [] then [(str "keycmd", ([] : Str))] else []
  ⟨k', [str "KEYCMD_CLEAR"], writes⟩

/-- Lexicographic (code-point) comparison of Python strings. -/
def lexLtB : Str → Str → Bool
  | [], [] => false
  | [], _ :: _ => true
  | _ :: _, [] => false
  | a :: as, b :: bs => if a < b then true else if b < a then false else lexLtB as bs

/-- Insert into a sorted list (helper for `pySort`). -/
def insSorted (x : Str) : List Str → List Str
  | [] => [x]
  | y :: ys => if lexLtB x y then x :: y :: ys else y :: insSorted x ys

/-- Python `list.sort()` on a list of strings (ascending code-point order). -/
def pySort : List Str → List Str
  | [] => []
  | x :: xs => insSorted x (pySort xs)

/-- `key_press` (keycmd.py lines 188-239). -/
def key_press (cfg : Config) (k0 : Keylet) (rawKey : Str) : Effects :=
  if (str "Shift_").isPrefixOf rawKey then ⟨k0, [], []⟩
  else
    let key := normalizeKey rawKey
    let p1 :=
      if k0.cmd ≠ [] ∧ k0.modcmd = false ∧ key = str "Space" then
        ({ k0 with cmd := pySliceTo k0.cmd k0.cursor ++ [' '] ++ pySliceFrom k0.cmd k0.cursor,
                   cursor := k0.cursor + 1 }, true)
      else if key.length > 1 then
        ({ k0 with modcmd := true }, true)
      else if k0.modcmd = false then
        if gateClosed cfg (str "keycmd_events") = false then
          if key.length = 1 then
            ({ k0 with cmd := pySliceTo k0.cmd k0.cursor ++ key ++ pySliceFrom k0.cmd k0.cursor,
                       cursor := k0.cursor + 1 }, true)
          else (k0, false)
        else if k0.cmd ≠ [] then
          ({ k0 with cmd := [], cursor := 0 }, true)
        else (k0, false)
      else (k0, false)
    let k1 := p1.1
    let p2 :=
      if k1.modcmd then
        let held1 := if key = str "Shift-Tab" ∧ str "Tab" ∈ k1.held
                     then k1.held.erase (str "Tab") else k1.held
        if key ∉ held1 then ({ k1 with held := pySort (held1 ++ [key]) }, true)
        else ({ k1 with held := held1 }, p1.2)
      else (k1, p1.2)
    if p2.2 then update_event cfg p2.1 true else ⟨p2.1, [], []⟩

/-- The compound-release resolution of `key_release` (keycmd.py lines 256-260). -/
def resolveRelease (key : Str) (held : List Str) : Str :=
  if (key = str "Shift" ∨ key = str "Tab") ∧ str "Shift-Tab" ∈ held then str "Shift-Tab"
  else if (key = str "Shift" ∨ key = str "Alt") ∧ str "Meta" ∈ held then str "Meta"
  else key

/-- `key_release` (keycmd.py lines 242-270). -/
def key_release (cfg : Config) (k : Keylet) (rawKey : Str) : Effects :=
  let key := resolveRelease (normalizeKey rawKey) k.held
  if key ∈ k.held then
    let held' := k.held.erase key
    let modcmd' := mod_held held'
    let k' := { k with held := held', modcmd := modcmd' }
    let evs := if modcmd' then [str "MODCMD_EXEC"] else []
    let r := update_event cfg k' true
    ⟨r.k, evs ++ r.events, r.writes⟩
  else ⟨k, [], []⟩

/-- `set_keycmd` (keycmd.py lines 273-282). -/
def set_keycmd (cfg : Config) (k : Keylet) (keycmd : Str) : Effects :=
  update_event cfg { k with modcmd := false, cmd := keycmd, cursor := (keycmd.length : Int) } false

/-- Python `s.rstrip(chars)`: drop trailing characters contained in `chars`. -/
def pyRstrip (s chars : Str) : Str :=
  (s.reverse.dropWhile (fun c => chars.contains c)).reverse

/-- Index of the last occurrence of `sep` in `s`, if any. -/
def lastIdx (s sep : Str) : Option Nat :=
  ((List.range (s.length + 1)).filter (fun i => sep.isPrefixOf (s.drop i))).getLast?

/-- Python `s.rsplit(sep, 1)` for a non-empty `sep`. -/
def pyRsplit1 (s sep : Str) : List Str :=
  match lastIdx s sep with
  | none => [s]
  | some i => [s.take i, s.drop (i + sep.length)]

/-- Python `sub in s` substring membership. -/
def pyInStr (sub s : Str) : Bool :=
  (List.range (s.length + 1)).any (fun i => sub.isPrefixOf (s.drop i))

/-- The `tmp` list of `keycmd_strip_word` (keycmd.py lines 295-298). -/
def strip_tmp (cmdHead sep : Str) : List Str :=
  if pyInStr sep cmdHead then pyRsplit1 (pyRstrip cmdHead sep) sep else [[]]

/-- `keycmd_strip_word` (keycmd.py lines 285-305).  `none` models the
`assert` on line 303 failing (an `AssertionError` propagating to the caller
before `update_event` runs). -/
def keycmd_strip_word (cfg : Config) (k : Keylet) (sep0 : Str) : Option Effects :=
  let sep := if sep0 = [] then [' '] else sep0
  if k.cmd = [] then some ⟨k, [], []⟩
  else
    let tmp := strip_tmp (pySliceTo k.cmd k.cursor) sep
    let cmd' := tmp.headD [] ++ (if tmp.length = 2 then sep else []) ++ pySliceFrom k.cmd k.cursor
    let cursor' : Int := ((tmp.headD []).length : Int) + ((tmp.length - 1 : Nat) : Int)
    if (cmd'.length : Int) - cursor' = (k.cmd.length : Int) - k.cursor
    then some (update_event cfg { k with cmd := cmd', cursor := cursor' } false)
    else none

/-- `keycmd_backspace` (keycmd.py lines 308-317). -/
def keycmd_backspace (cfg : Config) (k : Keylet) : Effects :=
  if k.cmd = [] then ⟨k, [], []⟩
  else
    update_event cfg
      { k with cmd := pySliceTo k.cmd (k.cursor - 1) ++ pySliceFrom k.cmd k.cursor,
               cursor := k.cursor - 1 } false

/-- `keycmd_exec_current` (keycmd.py lines 320-324). -/
def keycmd_exec_current (cfg : Config) (k : Keylet) : Effects :=
  let r := clear_keycmd cfg k
  ⟨r.k, str "KEYCMD_EXEC" :: r.events, r.writes⟩

/-- Characters stripped by Python `str.strip()` (ASCII whitespace). -/
def isPySpace (c : Char) : Bool :=
  c ∈ ([' ', '\t', '\n', '\r', '\x0b', '\x0c'] : List Char)

/-- Python `s.strip()`. -/
def pyStrip (s : Str) : Str :=
  ((s.dropWhile isPySpace).reverse.dropWhile isPySpace).reverse

/-- Value of a non-empty all-digit string. -/
def digitsVal (ds : Str) : Option Nat :=
  if ds ≠ [] ∧ ds.all (fun c => c.isDigit) then
    some (ds.foldl (fun a c => a * 10 + (c.toNat - 48)) 0)
  else none

/-- Python `int(s)` on an already-stripped string: optional sign followed by
ASCII digits; `none` models `ValueError`.  (CPython's underscore grouping and
non-ASCII digits are outside the model.) -/
def pyParseInt (s : Str) : Option Int :=
  match s with
  | '-' :: rest => (digitsVal rest).map (fun n => -(n : Int))
  | '+' :: rest => (digitsVal rest).map (fun n => (n : Int))
  | _ => (digitsVal s).map (fun n => (n : Int))

/-- `set_cursor_pos` (keycmd.py lines 327-349).  `none` models the
`ValueError` from `int(index.strip())` propagating to the caller: it is
raised before any keylet field is assigned and before `update_event` runs,
so the keylet is unchanged and no event or write happens. -/
def set_cursor_pos (cfg : Config) (k : Keylet) (index : Str) : Option Effects :=
  let cOpt : Option Int :=
    if index = str "-" then some (k.cursor - 1)
    else if index = str "+" then some (k.cursor + 1)
    else match pyParseInt (pyStrip index) with
      | none => none
      | some n => some (if n < 0 then (k.cmd.length : Int) + n + 1 else n)
  match cOpt with
  | none => none
  | some c0 =>
    let c1 := if c0 < 0 then 0 else c0
    let c2 := if c1 > (k.cmd.length : Int) then ((k.cmd.length : Int)) else c1
    some (update_event cfg { k with cursor := c2 } false)

/-- Follows the spec's words (§4.4 `set_cursor_pos`): resolve the cursor
specification to a target index — `-` decrements, `+` increments, a
non-negative integer `n` is `n`, a negative integer `n` is
`len(command) + n + 1`. -/
def cursor_spec_resolve (cmdLen : Nat) (cursor : Int) (index : Str) : Option Int :=
  if index = str "-" then some (cursor - 1)
  else if index = str "+" then some (cursor + 1)
  else match pyParseInt (pyStrip index) with
    | none => none
    | some n => some (if n < 0 then (cmdLen : Int) + n + 1 else n)

/-- Follows the spec's words: clamp the resolved index into `[0, len(command)]`. -/
def cursor_spec_clamp (cmdLen : Nat) (c : Int) : Int :=
  max 0 (min c (cmdLen : Int))

/-! The concrete modifier-flow trace of spec §8: press `Control`, press `a`,
release `Control`, release `a`, starting from a fresh keylet with an empty
configuration store. -/

/-- Step 1 of the modifier-flow trace: press `Control`. -/
def mf_r1 : Effects := key_press [] ⟨[], 0, [], false⟩ (str "Control")

/-- Step 2 of the modifier-flow trace: press `a`. -/
def mf_r2 : Effects := key_press [] mf_r1.k (str "a")

/-- Step 3 of the modifier-flow trace: release `Control`. -/
def mf_r3 : Effects := key_release [] mf_r2.k (str "Control")

/-- Step 4 of the modifier-flow trace: release `a`. -/
def mf_r4 : Effects := key_release [] mf_r3.k (str "a")

/-- All events raised over the modifier-flow trace, in order. -/
def mf_events : List Str := mf_r1.events ++ mf_r2.events ++ mf_r3.events ++ mf_r4.events

/-! ### Helper lemmas -/

/-- `update_event` never mutates the keylet: it only raises events and
computes the configuration write. -/
theorem update_event_keylet (cfg : Config) (k : Keylet) (e : Bool) :
    (update_event cfg k e).k = k := by
  unfold update_event
  repeat' split
  all_goals simp

/-- The `tmp` list of `keycmd_strip_word` always has one or two entries. -/
theorem strip_tmp_length (s sep : Str) :
    (strip_tmp s sep).length = 1 ∨ (strip_tmp s sep).length = 2 := by
  unfold strip_tmp pyRsplit1
  split
  · cases h : lastIdx (pyRstrip s sep) sep <;> simp [h]
  · simp

/-! ### Claims -/

/-- Claim C1, counterexample: starting from a fresh keylet, the sequence
press `Control`, press `a`, release `Control`, release `a` does NOT raise
`MODCMD_EXEC` exactly once — releasing `Control` drops `mod_held` to false
before the `if k.modcmd` test on line 266, so the event is never raised. -/
theorem modifier_flow_modcmd_exec_not_once :
    ¬ (mf_r4.k.held = [] ∧ mf_r4.k.modcmd = false ∧
       mf_events.count (str "MODCMD_EXEC") = 1) := by decide

/-- Claim C1, amended: the sequence press `Control`, press `a`, release
`Control`, release `a` from a fresh keylet leaves `held = []` and
`modcmd = false`, and raises `MODCMD_EXEC` zero times (the code raises
`MODCMD_EXEC` only when a modifier is still held after the removal). -/
theorem modifier_flow_trace_amended :
    mf_r4.k.held = [] ∧ mf_r4.k.modcmd = false ∧
    mf_events.count (str "MODCMD_EXEC") = 0 := by decide

/-- Claim C2, code-bug demonstration: `keycmd_backspace` on the keylet with
`command = "ab"`, `cursor = 0` yields `cursor = -1` and `command = "aab"`
(the Python slice `cmd[:cursor-1]` wraps around to `cmd[:-1]`), violating
the invariant `0 <= cursor <= len(command)` that every other code path and
the spec rely on. -/
theorem keycmd_backspace_cursor_goes_negative :
    (keycmd_backspace [] ⟨str "ab", 0, [], false⟩).k.cursor = -1 ∧
    (keycmd_backspace [] ⟨str "ab", 0, [], false⟩).k.cmd = str "aab" := by decide

/-- Claim C3, counterexample: for the two-character separator `"::"` on
`command = "ab::cd"` with the cursor at the end, `keycmd_strip_word`
re-inserts the full separator but advances the cursor count by only one, so
the trailing-character count changes and the assertion on line 303 fires
(modelled as `none`). -/
theorem strip_word_assertion_fires_multichar_sep :
    keycmd_strip_word [] ⟨str "ab::cd", 6, [], false⟩ (str "::") = none := by decide

/-- Claim C3, amended: for every keylet with a non-empty command and
`0 <= cursor <= len(command)` and every SINGLE-CHARACTER separator,
`keycmd_strip_word` succeeds (the internal assertion cannot fire) and the
number of characters after the cursor is unchanged. -/
theorem strip_word_preserves_tail_single_char_sep
    (cfg : Config) (k : Keylet) (sep : Str) (hsep : sep.length = 1)
    (hcmd : k.cmd ≠ []) (h0 : 0 ≤ k.cursor) (hle : k.cursor ≤ (k.cmd.length : Int)) :
    ∃ r, keycmd_strip_word cfg k sep = some r ∧
      (r.k.cmd.length : Int) - r.k.cursor = (k.cmd.length : Int) - k.cursor := by
  have hsepne : sep ≠ [] := by
    intro h; rw [h] at hsep; simp at hsep
  have hfrom : (pySliceFrom k.cmd k.cursor).length = k.cmd.length - k.cursor.toNat := by
    unfold pySliceFrom
    rw [if_neg (by omega), List.length_drop]
  have key : ∀ tl : List Str, tl.length = 1 ∨ tl.length = 2 →
      (((tl.headD [] ++ (if tl.length = 2 then sep else []) ++
          pySliceFrom k.cmd k.cursor).length : Int)
        - (((tl.headD []).length : Int) + ((tl.length - 1 : Nat) : Int))
        = (k.cmd.length : Int) - k.cursor) := by
    intro tl h2
    rcases h2 with h2 | h2 <;>
      simp only [h2, List.length_append, hfrom] <;>
      · simp only [show ¬ ((1:Nat) = 2) from by omega, show ((2:Nat) = 2) from rfl,
          if_true, if_false, List.length_nil]
        omega
  have hc := key _ (strip_tmp_length (pySliceTo k.cmd k.cursor) sep)
  unfold keycmd_strip_word
  simp only [if_neg hsepne, if_neg hcmd]
  rw [if_pos hc]
  exact ⟨_, rfl, by simpa [update_event_keylet] using hc⟩

/-- Claim C3, witness: stripping the last word of `"foo bar"` with the
single-character separator `" "` succeeds and preserves the (empty) tail. -/
theorem strip_word_preserves_tail_witness :
    ∃ r, keycmd_strip_word [] ⟨str "foo bar", 7, [], false⟩ (str " ") = some r ∧
      (r.k.cmd.length : Int) - r.k.cursor = ((str "foo bar").length : Int) - 7 :=
  strip_word_preserves_tail_single_char_sep [] ⟨str "foo bar", 7, [], false⟩ (str " ")
    (by decide) (by decide) (by decide) (by decide)

/-- Claim C4, counterexample: with `keycmd_events = "0"` in the
configuration, `update_event` with `execute = true` on a keylet whose
`modcmd` is false raises NO `KEYCMD_UPDATE` — the config check on line 165
returns before the event is raised, unlike the `modcmd` branch. -/
theorem update_event_gate_suppresses_keycmd_update :
    str "KEYCMD_UPDATE" ∉
      (update_event [(str "keycmd_events", str "0")] ⟨str "a", 1, [], false⟩ true).events := by
  decide

/-- Claim C4, amended: when `modcmd` is false and `execute` is true,
`update_event` raises `KEYCMD_UPDATE` exactly when the `keycmd_events` gate
is open (key absent or equal to `"1"`); when the gate is closed, the check
precedes the event, so neither the event nor any write happens. -/
theorem update_event_keycmd_update_iff_gate_open (cfg : Config) (k : Keylet)
    (h : k.modcmd = false) :
    ((update_event cfg k true).events
        = (if gateClosed cfg (str "keycmd_events") then [] else [str "KEYCMD_UPDATE"])) ∧
    (gateClosed cfg (str "keycmd_events") = true → (update_event cfg k true).writes = []) := by
  unfold update_event
  rw [h]
  cases hg : gateClosed cfg (str "keycmd_events") <;> simp only [hg]
  · constructor
    · repeat' split
      all_goals simp_all
    · intro hc
      simp at hc
  · constructor
    · simp
    · intro hc
      simp

/-- Claim C4, witness: with an empty configuration the gate is open and the
`KEYCMD_UPDATE` event is raised. -/
theorem update_event_keycmd_update_witness :
    (update_event [] ⟨[], 0, [], false⟩ true).events = [str "KEYCMD_UPDATE"] := by
  have h := update_event_keycmd_update_iff_gate_open [] ⟨[], 0, [], false⟩ rfl
  rw [h.1]
  decide

/-- Claim C5: `escape` maps the five-character string `a@b\c` to the
eleven-character string `@[a\@b\\c]@`, and the empty string to itself. -/
theorem escape_examples :
    escape (str "a@b\\c") = str "@[a\\@b\\\\c]@" ∧ escape (str "") = str "" := by decide

/-- Claim C6: whenever the cursor specification resolves (per the spec's
rule: `-` decrements, `+` increments, a non-negative integer is taken as
is, a negative integer `n` becomes `len(command) + n + 1`), `set_cursor_pos`
succeeds and sets the cursor to the resolved value clamped into
`[0, len(command)]`, leaving command, held and modcmd unchanged. -/
theorem set_cursor_pos_resolves_and_clamps (cfg : Config) (k : Keylet) (index : Str)
    (c : Int) (h : cursor_spec_resolve k.cmd.length k.cursor index = some c) :
    ∃ r, set_cursor_pos cfg k index = some r ∧
      r.k.cursor = cursor_spec_clamp k.cmd.length c ∧
      r.k.cmd = k.cmd ∧ r.k.held = k.held ∧ r.k.modcmd = k.modcmd := by
  have hclamp : ∀ c0 : Int,
      (if (if c0 < 0 then 0 else c0) > (k.cmd.length : Int) then ((k.cmd.length : Int))
       else if c0 < 0 then 0 else c0) = cursor_spec_clamp k.cmd.length c0 := by
    intro c0
    unfold cursor_spec_clamp
    split_ifs <;> omega
  unfold cursor_spec_resolve at h
  unfold set_cursor_pos
  by_cases h1 : index = str "-"
  · rw [if_pos h1] at h ⊢
    obtain rfl : k.cursor - 1 = c := Option.some.inj h
    refine ⟨_, rfl, ?_, ?_, ?_, ?_⟩ <;> rw [update_event_keylet]
    exact hclamp _
  · rw [if_neg h1] at h ⊢
    by_cases h2 : index = str "+"
    · rw [if_pos h2] at h ⊢
      obtain rfl : k.cursor + 1 = c := Option.some.inj h
      refine ⟨_, rfl, ?_, ?_, ?_, ?_⟩ <;> rw [update_event_keylet]
      exact hclamp _
    · rw [if_neg h2] at h ⊢
      cases hp : pyParseInt (pyStrip index) with
      | none => rw [hp] at h; exact absurd h (by simp)
      | some n =>
        obtain rfl : (if n < 0 then (k.cmd.length : Int) + n + 1 else n) = c := by
          rw [hp] at h
          simpa using h
        refine ⟨_, rfl, ?_, ?_, ?_, ?_⟩ <;> rw [update_event_keylet]
        exact hclamp _

/-- Claim C6, witness: `set_cursor_pos("-5")` on a command of length 3
resolves to `3 + (-5) + 1 = -1` and clamps to cursor 0. -/
theorem set_cursor_pos_neg5_witness :
    ∃ r, set_cursor_pos [] ⟨str "abc", 3, [], false⟩ (str "-5") = some r ∧
      r.k.cursor = 0 := by
  obtain ⟨r, hr, hc, -, -, -⟩ :=
    set_cursor_pos_resolves_and_clamps [] ⟨str "abc", 3, [], false⟩ (str "-5") (-1)
      (by decide)
  exact ⟨r, hr, by rw [hc]; decide⟩

/-- Claim C7: when the cursor specification is neither `-` nor `+` and does
not parse as an integer after stripping surrounding whitespace, the
`ValueError` from `int` propagates to the caller (`none`): it is raised
before any keylet field is assigned, so the keylet is unchanged and no
event or configuration write happens. -/
theorem set_cursor_pos_parse_failure_propagates (cfg : Config) (k : Keylet) (index : Str)
    (h1 : index ≠ str "-") (h2 : index ≠ str "+")
    (h3 : pyParseInt (pyStrip index) = none) :
    set_cursor_pos cfg k index = none := by
  unfold set_cursor_pos
  rw [if_neg h1, if_neg h2, h3]

/-- Claim C7, witness: the unparseable specification `"xyz"` propagates the
parse failure. -/
theorem set_cursor_pos_parse_failure_witness :
    set_cursor_pos [] ⟨[], 0, [], false⟩ (str "xyz") = none :=
  set_cursor_pos_parse_failure_propagates [] ⟨[], 0, [], false⟩ (str "xyz")
    (by decide) (by decide) (by decide)

/-- Claim C8: on a keylet with an empty command and `modcmd` false (and
`Space` not already held), pressing the raw key `space` inserts no space
character into the command — the key normalizes to the multi-character name
`Space`, so the press enters modcmd mode and appends `Space` to `held`
(which is then re-sorted); the space-insertion branch needs a non-empty
command. -/
theorem key_press_space_enters_modcmd (cfg : Config) (k : Keylet)
    (hcmd : k.cmd = []) (hmod : k.modcmd = false) (hheld : str "Space" ∉ k.held) :
    (key_press cfg k (str "space")).k.cmd = [] ∧
    (key_press cfg k (str "space")).k.modcmd = true ∧
    (key_press cfg k (str "space")).k.held = pySort (k.held ++ [str "Space"]) := by
  have h1 : ¬ ((str "Shift_").isPrefixOf (str "space") = true) := by decide
  have h2 : normalizeKey (str "space") = str "Space" := by decide
  have h3 : ((str "Space" : Str) = str "Shift-Tab") = False := by decide
  have h4 : (str "Space").length > 1 := by decide
  unfold key_press
  rw [if_neg h1, h2]
  simp [hcmd, hmod, hheld, h3, h4, update_event_keylet]

/-- Claim C8, witness: pressing `space` on a fresh keylet. -/
theorem key_press_space_witness :
    (key_press [] ⟨[], 0, [], false⟩ (str "space")).k.cmd = [] ∧
    (key_press [] ⟨[], 0, [], false⟩ (str "space")).k.modcmd = true ∧
    (key_press [] ⟨[], 0, [], false⟩ (str "space")).k.held
      = pySort ([] ++ [str "Space"]) :=
  key_press_space_enters_modcmd [] ⟨[], 0, [], false⟩ rfl rfl (by decide)

/-- Claim C9: a `key_release` whose key — after normalization and
compound-release resolution — is not held leaves the keylet unchanged and
raises no event and performs no write. -/
theorem key_release_unheld_noop (cfg : Config) (k : Keylet) (rawKey : Str)
    (h : resolveRelease (normalizeKey rawKey) k.held ∉ k.held) :
    key_release cfg k rawKey = ⟨k, [], []⟩ := by
  unfold key_release
  simp [h]

/-- Claim C9, witness: releasing the unheld key `x` on a fresh keylet. -/
theorem key_release_unheld_witness :
    key_release [] ⟨[], 0, [], false⟩ (str "x") = ⟨⟨[], 0, [], false⟩, [], []⟩ :=
  key_release_unheld_noop [] ⟨[], 0, [], false⟩ (str "x") (by decide)

/-- Claim C10: `keycmd_strip_word` on a keylet with an empty command
returns immediately: the keylet is unchanged and no event is raised and no
configuration write happens. -/
theorem strip_word_empty_cmd_noop (cfg : Config) (k : Keylet) (sep0 : Str)
    (h : k.cmd = []) :
    keycmd_strip_word cfg k sep0 = some ⟨k, [], []⟩ := by
  unfold keycmd_strip_word
  simp [h]

/-- Claim C10, witness: an empty command with a stale cursor and `modcmd`
set is left exactly as it was. -/
theorem strip_word_empty_cmd_witness :
    keycmd_strip_word [] ⟨[], 5, [], true⟩ (str " ") = some ⟨⟨[], 5, [], true⟩, [], []⟩ :=
  strip_word_empty_cmd_noop [] ⟨[], 5, [], true⟩ (str " ") rfl
